import Mathlib

/-!
# Verification of the council carbon-emissions dashboard core

A shallow embedding, in Lean 4, of the emissions-calculation and
factor-selection engine of `invoice_extractor.py`, together with the derived
analytics built on top of it (year-over-year change, seasonal aggregation,
target-pathway projection, progress assessment) and the entry-creation sites.

Python floats are modelled as exact rationals (`ℚ`); pandas/NumPy float
division, which produces `inf`/`-inf`/`NaN` instead of raising, is modelled by
the inductive type `PFloat`; Python's `/` on a zero denominator, which raises
`ZeroDivisionError`, is modelled by `Option`.  Python dictionaries are modelled
as association lists in insertion order, so `list(d.values())[-1]` is the last
value of the list.
-/

/-- The reporting-period conventions offered by the app
(`REPORTING_PERIODS = {"calendar": ..., "financial": ...}`).  The session
default is `calendar` (`st.session_state.reporting_period = "calendar"`). -/
inductive ReportingPeriod
  | calendar
  | financial
  deriving DecidableEq

/-- The fields of a Python `datetime` that the calculation engine reads:
`date.year` and `date.month` (1–12). -/
structure PyDate where
  year : Int
  month : Nat
  deriving DecidableEq

/-- `calculate_emissions` accepts either a `datetime` or a bare `int` year. -/
inductive DateOrYear
  | asDate (d : PyDate)
  | asYear (y : Int)
  deriving DecidableEq

/-- `ELECTRICITY_FACTORS` dict, in insertion order (kg CO2e per kWh). -/
def ELECTRICITY_FACTORS : List (Int × ℚ) :=
  [(2022, 0.19338),
   (2023, 0.207074),
   (2024, 0.20705),
   (2025, 0.20705)]

/-- `GAS_FACTORS` dict, in insertion order (kg CO2e per kWh). -/
def GAS_FACTORS : List (Int × ℚ) :=
  [(2022, 0.18254),
   (2023, 0.18293),
   (2024, 0.18290),
   (2025, 0.18290)]

/-- The years present in the factor tables (`AVAILABLE_YEARS`). -/
def factorTableYears : List Int := ELECTRICITY_FACTORS.map Prod.fst

/-- Plain dictionary lookup `d[k]`: `some v` when the key is present,
`none` when it is absent. -/
def tableEntry (t : List (Int × ℚ)) (k : Int) : Option ℚ :=
  match t with
  | [] => none
  | (k0, v) :: rest => if k = k0 then some v else tableEntry rest k

/-- `d.get(k, fallback)`: the stored value when the key is present,
the supplied fallback otherwise. -/
def dictGet (t : List (Int × ℚ)) (fallback : ℚ) (k : Int) : ℚ :=
  match t with
  | [] => fallback
  | (k0, v) :: rest => if k = k0 then v else dictGet rest fallback k

/-- `list(d.values())[-1]`: the last value in insertion order (the tables are
nonempty, so the empty case is unreachable; 0 is a harmless placeholder). -/
def lastValue : List (Int × ℚ) → ℚ
  | [] => 0
  | [(_, v)] => v
  | _ :: p :: rest => lastValue (p :: rest)

/-- `d.get(factor_year, list(d.values())[-1])` — the factor lookup used by
`calculate_emissions` (source lines 813–814). -/
def getFactor (t : List (Int × ℚ)) (k : Int) : ℚ :=
  dictGet t (lastValue t) k

/-- `get_appropriate_factor_year` (source lines 763–791): calendar convention
returns `date.year`; financial convention returns `date.year` for April–December
and `date.year - 1` for January–March.  (The function's trailing
`return date.year` default is unreachable for the two defined conventions.) -/
def get_appropriate_factor_year (rp : ReportingPeriod) (date : PyDate) : Int :=
  match rp with
  | .calendar => date.year
  | .financial => if 4 ≤ date.month then date.year else date.year - 1

/-- The dict returned by `calculate_emissions`. -/
structure EmissionsResult where
  electricity_emissions_kg : ℚ
  gas_emissions_kg : ℚ
  total_emissions_tonnes : ℚ
  factor_year : Int
  deriving DecidableEq

/-- `calculate_emissions` (source lines 793–828): a bare `int` year becomes
`datetime(year, 1, 1)`; the factor year comes from
`get_appropriate_factor_year`; each carrier's factor is looked up with fallback
`list(FACTORS.values())[-1]`; emissions are `kwh * factor`, and the total in
tonnes is the sum of the per-carrier kilograms divided by 1000.  The ambient
`st.session_state.reporting_period` is threaded as the explicit parameter
`rp`. -/
def calculate_emissions (rp : ReportingPeriod) (electricity_kwh gas_kwh : ℚ)
    (date : DateOrYear) : EmissionsResult :=
  let d : PyDate :=
    match date with
    | .asDate d => d
    | .asYear y => ⟨y, 1⟩
  let factor_year := get_appropriate_factor_year rp d
  let electricity_factor := getFactor ELECTRICITY_FACTORS factor_year
  let gas_factor := getFactor GAS_FACTORS factor_year
  let electricity_emissions_kg := electricity_kwh * electricity_factor
  let gas_emissions_kg := gas_kwh * gas_factor
  let total_emissions_kg := electricity_emissions_kg + gas_emissions_kg
  { electricity_emissions_kg := electricity_emissions_kg
    gas_emissions_kg := gas_emissions_kg
    total_emissions_tonnes := total_emissions_kg / 1000
    factor_year := factor_year }

/-- C1: for every electricity_kwh ≥ 0, gas_kwh ≥ 0 and every year Y present in
the factor tables, `calculate_emissions` under the calendar reporting
convention (the session default, under which a bare year — treated as
January 1 of that year — resolves to itself) returns
electricity_kg = electricity_kwh × electricity_factor[Y],
gas_kg = gas_kwh × gas_factor[Y], and
total_tonnes = (electricity_kg + gas_kg) / 1000, exactly. -/
theorem calculate_emissions_table_year (e g : ℚ) (he : 0 ≤ e) (hg : 0 ≤ g)
    (y : Int) (hy : y ∈ factorTableYears) :
    ∃ ef gf : ℚ,
      tableEntry ELECTRICITY_FACTORS y = some ef ∧
      tableEntry GAS_FACTORS y = some gf ∧
      (calculate_emissions .calendar e g (.asYear y)).electricity_emissions_kg
        = e * ef ∧
      (calculate_emissions .calendar e g (.asYear y)).gas_emissions_kg
        = g * gf ∧
      (calculate_emissions .calendar e g (.asYear y)).total_emissions_tonnes
        = (e * ef + g * gf) / 1000 ∧
      (calculate_emissions .calendar e g (.asYear y)).factor_year = y := by
  have hy4 : y = 2022 ∨ y = 2023 ∨ y = 2024 ∨ y = 2025 := by
    simpa [factorTableYears, ELECTRICITY_FACTORS] using hy
  rcases hy4 with h | h | h | h <;> subst h <;>
    exact ⟨_, _, rfl, rfl, rfl, rfl, rfl, rfl⟩

/-- Witness for C1: the spec's end-to-end example.  electricity = 10,000 kWh
and gas = 5,000 kWh for year 2024 (factors 0.20705 and 0.18290) yield
electricity_kg = 2070.5, gas_kg = 914.5 and total_tonnes = 2.985. -/
theorem calculate_emissions_table_year_witness :
    (∃ ef gf : ℚ,
      tableEntry ELECTRICITY_FACTORS 2024 = some ef ∧
      tableEntry GAS_FACTORS 2024 = some gf ∧
      (calculate_emissions .calendar 10000 5000 (.asYear 2024)).electricity_emissions_kg
        = 10000 * ef ∧
      (calculate_emissions .calendar 10000 5000 (.asYear 2024)).gas_emissions_kg
        = 5000 * gf ∧
      (calculate_emissions .calendar 10000 5000 (.asYear 2024)).total_emissions_tonnes
        = (10000 * ef + 5000 * gf) / 1000 ∧
      (calculate_emissions .calendar 10000 5000 (.asYear 2024)).factor_year = 2024) ∧
    (calculate_emissions .calendar 10000 5000 (.asYear 2024)).electricity_emissions_kg
      = 2070.5 ∧
    (calculate_emissions .calendar 10000 5000 (.asYear 2024)).gas_emissions_kg
      = 914.5 ∧
    (calculate_emissions .calendar 10000 5000 (.asYear 2024)).total_emissions_tonnes
      = 2.985 :=
  ⟨calculate_emissions_table_year 10000 5000 (by norm_num) (by norm_num) 2024
      (by decide),
    by norm_num [calculate_emissions, getFactor, dictGet, lastValue,
      get_appropriate_factor_year, ELECTRICITY_FACTORS, GAS_FACTORS],
    by norm_num [calculate_emissions, getFactor, dictGet, lastValue,
      get_appropriate_factor_year, ELECTRICITY_FACTORS, GAS_FACTORS],
    by norm_num [calculate_emissions, getFactor, dictGet, lastValue,
      get_appropriate_factor_year, ELECTRICITY_FACTORS, GAS_FACTORS]⟩

/-- C2: the factor-year resolver returns `date.year` under the calendar
convention; under the financial convention it returns `date.year` when the
month is at least 4 (April–December) and `date.year - 1` when the month is at
most 3 (January–March). -/
theorem get_appropriate_factor_year_spec (d : PyDate) :
    get_appropriate_factor_year .calendar d = d.year ∧
    (4 ≤ d.month → get_appropriate_factor_year .financial d = d.year) ∧
    (d.month ≤ 3 → get_appropriate_factor_year .financial d = d.year - 1) := by
  refine ⟨rfl, fun h => ?_, fun h => ?_⟩
  · simp [get_appropriate_factor_year, h]
  · simp [get_appropriate_factor_year]
    omega

/-- Witness for C2: resolving 2024-02-01 under the financial convention gives
2023, and resolving 2024-04-01 gives 2024. -/
theorem get_appropriate_factor_year_spec_witness :
    get_appropriate_factor_year .financial ⟨2024, 2⟩ = 2023 ∧
    get_appropriate_factor_year .financial ⟨2024, 4⟩ = 2024 :=
  ⟨(get_appropriate_factor_year_spec ⟨2024, 2⟩).2.2 (by decide),
   (get_appropriate_factor_year_spec ⟨2024, 4⟩).2.1 (by decide)⟩

/-- C3: for every resolved factor year strictly greater than the tables'
maximum key (2025), `calculate_emissions` uses, for each carrier, the factor
stored at the maximum key — 0.20705 for electricity and 0.18290 for gas —
rather than raising an error: the lookup misses (`tableEntry ... = none`) and
the fallback is the last inserted value, which is the entry at 2025. -/
theorem calculate_emissions_future_fallback (y : Int) (hy : 2025 < y)
    (e g : ℚ) :
    (∀ k ∈ ELECTRICITY_FACTORS.map Prod.fst, k ≤ 2025) ∧
    (∀ k ∈ GAS_FACTORS.map Prod.fst, k ≤ 2025) ∧
    tableEntry ELECTRICITY_FACTORS y = none ∧
    tableEntry GAS_FACTORS y = none ∧
    tableEntry ELECTRICITY_FACTORS 2025 = some 0.20705 ∧
    tableEntry GAS_FACTORS 2025 = some 0.18290 ∧
    getFactor ELECTRICITY_FACTORS y = 0.20705 ∧
    getFactor GAS_FACTORS y = 0.18290 ∧
    (calculate_emissions .calendar e g (.asYear y)).electricity_emissions_kg
      = e * 0.20705 ∧
    (calculate_emissions .calendar e g (.asYear y)).gas_emissions_kg
      = g * 0.18290 := by
  have h1 : y ≠ 2022 := by omega
  have h2 : y ≠ 2023 := by omega
  have h3 : y ≠ 2024 := by omega
  have h4 : y ≠ 2025 := by omega
  refine ⟨by decide, by decide, ?_, ?_, ?_, ?_, ?_, ?_, ?_, ?_⟩ <;>
    norm_num [tableEntry, getFactor, dictGet, lastValue, ELECTRICITY_FACTORS,
      GAS_FACTORS, calculate_emissions, get_appropriate_factor_year,
      h1, h2, h3, h4]

/-- Witness for C3: year 2026 falls back to the 2025 factors. -/
theorem calculate_emissions_future_fallback_witness :
    (∀ k ∈ ELECTRICITY_FACTORS.map Prod.fst, k ≤ 2025) ∧
    (∀ k ∈ GAS_FACTORS.map Prod.fst, k ≤ 2025) ∧
    tableEntry ELECTRICITY_FACTORS 2026 = none ∧
    tableEntry GAS_FACTORS 2026 = none ∧
    tableEntry ELECTRICITY_FACTORS 2025 = some 0.20705 ∧
    tableEntry GAS_FACTORS 2025 = some 0.18290 ∧
    getFactor ELECTRICITY_FACTORS 2026 = 0.20705 ∧
    getFactor GAS_FACTORS 2026 = 0.18290 ∧
    (calculate_emissions .calendar 1000 2000 (.asYear 2026)).electricity_emissions_kg
      = 1000 * 0.20705 ∧
    (calculate_emissions .calendar 1000 2000 (.asYear 2026)).gas_emissions_kg
      = 2000 * 0.18290 :=
  calculate_emissions_future_fallback 2026 (by norm_num) 1000 2000

/-- C10: for every factor year below the tables' minimum key 2022 — for
example factor year 2021, reached from any usage date in January–March 2022
under the financial convention — the lookup misses and `calculate_emissions`
silently applies the last-inserted (2025) factors: the fallback is not
restricted to future years, and an out-of-range past year never selects the
earliest (2022) table entry. -/
theorem calculate_emissions_past_fallback (y : Int) (hy : y < 2022)
    (m : Nat) (hm : m ≤ 3) (e g : ℚ) :
    getFactor ELECTRICITY_FACTORS y = 0.20705 ∧
    getFactor GAS_FACTORS y = 0.18290 ∧
    getFactor ELECTRICITY_FACTORS y = getFactor ELECTRICITY_FACTORS 2025 ∧
    getFactor GAS_FACTORS y = getFactor GAS_FACTORS 2025 ∧
    getFactor ELECTRICITY_FACTORS y ≠ (tableEntry ELECTRICITY_FACTORS 2022).getD 0 ∧
    getFactor GAS_FACTORS y ≠ (tableEntry GAS_FACTORS 2022).getD 0 ∧
    (calculate_emissions .financial e g (.asDate ⟨2022, m⟩)).factor_year = 2021 ∧
    (calculate_emissions .financial e g (.asDate ⟨2022, m⟩)).electricity_emissions_kg
      = e * 0.20705 ∧
    (calculate_emissions .financial e g (.asDate ⟨2022, m⟩)).gas_emissions_kg
      = g * 0.18290 := by
  have h1 : y ≠ 2022 := by omega
  have h2 : y ≠ 2023 := by omega
  have h3 : y ≠ 2024 := by omega
  have h4 : y ≠ 2025 := by omega
  have hm4 : ¬ 4 ≤ m := by omega
  refine ⟨?_, ?_, ?_, ?_, ?_, ?_, ?_, ?_, ?_⟩ <;>
    simp [tableEntry, getFactor, dictGet, lastValue, ELECTRICITY_FACTORS,
      GAS_FACTORS, calculate_emissions, get_appropriate_factor_year,
      h1, h2, h3, h4, hm4] <;> norm_num

/-- Witness for C10: factor year 2021, reached from the usage date 2022-02-01
under the financial convention, uses the 2025 factors. -/
theorem calculate_emissions_past_fallback_witness :
    getFactor ELECTRICITY_FACTORS 2021 = 0.20705 ∧
    getFactor GAS_FACTORS 2021 = 0.18290 ∧
    getFactor ELECTRICITY_FACTORS 2021 = getFactor ELECTRICITY_FACTORS 2025 ∧
    getFactor GAS_FACTORS 2021 = getFactor GAS_FACTORS 2025 ∧
    getFactor ELECTRICITY_FACTORS 2021 ≠ (tableEntry ELECTRICITY_FACTORS 2022).getD 0 ∧
    getFactor GAS_FACTORS 2021 ≠ (tableEntry GAS_FACTORS 2022).getD 0 ∧
    (calculate_emissions .financial 1 1 (.asDate ⟨2022, 2⟩)).factor_year = 2021 ∧
    (calculate_emissions .financial 1 1 (.asDate ⟨2022, 2⟩)).electricity_emissions_kg
      = 1 * 0.20705 ∧
    (calculate_emissions .financial 1 1 (.asDate ⟨2022, 2⟩)).gas_emissions_kg
      = 1 * 0.18290 :=
  calculate_emissions_past_fallback 2021 (by norm_num) 2 (by norm_num) 1 1

/-- Counterexample for C8: `calculate_emissions` does not reject negative
usage.  At electricity = −100 kWh it computes emissions from the negative
value (−100 × 0.20705 = −20.705 kg, total −0.020705 t): the input is neither
reported as a validation failure nor clamped to zero before the arithmetic. -/
theorem calculate_emissions_negative_not_rejected :
    (calculate_emissions .calendar (-100) 0 (.asYear 2024)).electricity_emissions_kg
      = -20.705 ∧
    (calculate_emissions .calendar (-100) 0 (.asYear 2024)).gas_emissions_kg
      = 0 ∧
    (calculate_emissions .calendar (-100) 0 (.asYear 2024)).total_emissions_tonnes
      = -0.020705 := by
  refine ⟨?_, ?_, ?_⟩ <;>
    norm_num [calculate_emissions, getFactor, dictGet, lastValue,
      get_appropriate_factor_year, ELECTRICITY_FACTORS, GAS_FACTORS]

/-- C8 as amended: `calculate_emissions` performs no input validation.  A
negative electricity kWh value is used unchanged in the arithmetic — the
result is exactly `e × factor`, which is strictly negative since every factor
(including the fallback) is positive — so negative usage is neither rejected
nor clamped to zero; non-negativity is enforced only by the UI input widgets
(`min_value=0`). -/
theorem calculate_emissions_negative_flows_through (e g : ℚ) (y : Int)
    (he : e < 0) :
    (calculate_emissions .calendar e g (.asYear y)).electricity_emissions_kg
      = e * getFactor ELECTRICITY_FACTORS y ∧
    0 < getFactor ELECTRICITY_FACTORS y ∧
    (calculate_emissions .calendar e g (.asYear y)).electricity_emissions_kg
      < 0 := by
  have hpos : 0 < getFactor ELECTRICITY_FACTORS y := by
    by_cases h1 : y = 2022
    · subst h1; norm_num [getFactor, dictGet, lastValue, ELECTRICITY_FACTORS]
    · by_cases h2 : y = 2023
      · subst h2; norm_num [getFactor, dictGet, lastValue, ELECTRICITY_FACTORS]
      · by_cases h3 : y = 2024
        · subst h3; norm_num [getFactor, dictGet, lastValue, ELECTRICITY_FACTORS]
        · by_cases h4 : y = 2025
          · subst h4; norm_num [getFactor, dictGet, lastValue, ELECTRICITY_FACTORS]
          · norm_num [getFactor, dictGet, lastValue, ELECTRICITY_FACTORS,
              h1, h2, h3, h4]
  refine ⟨rfl, hpos, ?_⟩
  have : (calculate_emissions .calendar e g (.asYear y)).electricity_emissions_kg
      = e * getFactor ELECTRICITY_FACTORS y := rfl
  rw [this]
  exact mul_neg_of_neg_of_pos he hpos

/-- Witness for C8's amended theorem, at electricity = −100 kWh, year 2024. -/
theorem calculate_emissions_negative_flows_through_witness :
    (calculate_emissions .calendar (-100) 0 (.asYear 2024)).electricity_emissions_kg
      = (-100) * getFactor ELECTRICITY_FACTORS 2024 ∧
    0 < getFactor ELECTRICITY_FACTORS 2024 ∧
    (calculate_emissions .calendar (-100) 0 (.asYear 2024)).electricity_emissions_kg
      < 0 :=
  calculate_emissions_negative_flows_through (-100) 0 2024 (by norm_num)

/-- IEEE-754-style value space of pandas/NumPy float arithmetic, as far as the
dashboard's derived ratios exercise it: a finite value, the two infinities, or
NaN. -/
inductive PFloat
  | finite (q : ℚ)
  | posInf
  | negInf
  | nan
  deriving DecidableEq

/-- pandas/NumPy float division: a zero denominator does not raise but yields
`inf`, `-inf` or `NaN` according to the sign of the numerator. -/
def pdiv (a b : ℚ) : PFloat :=
  if b = 0 then
    if 0 < a then .posInf else if a < 0 then .negInf else .nan
  else .finite (a / b)

/-- Multiplication of a pandas float by a finite constant (only the positive
constant 100 is used below; the other sign cases follow IEEE 754). -/
def pfloatMul (x : PFloat) (c : ℚ) : PFloat :=
  match x with
  | .finite q => .finite (q * c)
  | .posInf => if 0 < c then .posInf else if c < 0 then .negInf else .nan
  | .negInf => if 0 < c then .negInf else if c < 0 then .posInf else .nan
  | .nan => .nan

/-- pandas `Series.pct_change` between consecutive yearly sums:
`(current - previous) / previous`. -/
def pct_change (prev curr : ℚ) : PFloat :=
  pdiv (curr - prev) prev

/-- The year-on-year change columns of `show_yearly_analysis` (source lines
2290–2294): `pct_change() * 100`. -/
def yoy_change_percent (prev curr : ℚ) : PFloat :=
  pfloatMul (pct_change prev curr) 100

/-- One point of the target pathway (source line 2625):
`baseline_emissions * (1 - (target_percentage/100) * (i-baseline_year)/(2050-baseline_year))`.
The division is Python `/`, which raises `ZeroDivisionError` on a zero
denominator, modelled as `none`; the code contains no guard for
`baseline_year = 2050`. -/
def pathway_target (baseline_year : Int) (baseline_emissions target_percentage : ℚ)
    (y : Int) : Option ℚ :=
  if (2050 - baseline_year : Int) = 0 then none
  else some (baseline_emissions *
    (1 - (target_percentage / 100) * ((y - baseline_year : Int) : ℚ)
      / ((2050 - baseline_year : Int) : ℚ)))

/-- Counterexample / code evaluation for C4: with a zero previous-year sum the
year-on-year change is `inf` (or `NaN` when the current sum is also zero),
not a "not applicable" sentinel — no such branch exists in the code — and the
target-pathway expression with baseline_year = 2050 divides by zero
(`ZeroDivisionError`) instead of being defined as a single point. -/
theorem yoy_change_zero_previous_is_inf :
    yoy_change_percent 0 5 = PFloat.posInf ∧
    yoy_change_percent 0 0 = PFloat.nan ∧
    yoy_change_percent 0 (-5) = PFloat.negInf ∧
    pathway_target 2050 100 25 2050 = none := by
  refine ⟨?_, ?_, ?_, ?_⟩ <;>
    norm_num [yoy_change_percent, pct_change, pdiv, pfloatMul, pathway_target]

/-- The four season labels of `show_yearly_analysis` ('Winter', 'Spring',
'Summer', 'Autumn'), as an enumeration. -/
inductive Season
  | winter
  | spring
  | summer
  | autumn
  deriving DecidableEq

/-- `winter_months = [12, 1, 2]` (source line 2481). -/
def winter_months : List Nat := [12, 1, 2]

/-- `spring_months = [3, 4, 5]` (source line 2482). -/
def spring_months : List Nat := [3, 4, 5]

/-- `summer_months = [6, 7, 8]` (source line 2483). -/
def summer_months : List Nat := [6, 7, 8]

/-- `autumn_months = [9, 10, 11]` (source line 2484). -/
def autumn_months : List Nat := [9, 10, 11]

/-- The season lambda of `show_yearly_analysis` (source lines 2487–2491):
'Winter' if the month is in `winter_months`, else 'Spring' if in
`spring_months`, else 'Summer' if in `summer_months`, else 'Autumn'. -/
def season_of (m : Nat) : Season :=
  if m ∈ winter_months then .winter
  else if m ∈ spring_months then .spring
  else if m ∈ summer_months then .summer
  else .autumn

/-- The season display order imposed by the categorical sort
(source lines 2506–2509). -/
def season_order : List Season := [.winter, .spring, .summer, .autumn]

/-- Whether any monthly row falls in season `s`.  A monthly row is a pair
(month number, total emissions tonnes). -/
def seasonPresent (rows : List (Nat × ℚ)) (s : Season) : Bool :=
  match rows with
  | [] => false
  | r :: rest => if season_of r.1 = s then true else seasonPresent rest s

/-- The groupby sum of the total-tonnes column for season `s`. -/
def seasonTotal (rows : List (Nat × ℚ)) (s : Season) : ℚ :=
  match rows with
  | [] => 0
  | r :: rest =>
      if season_of r.1 = s then r.2 + seasonTotal rest s
      else seasonTotal rest s

/-- The seasons that actually occur among the monthly rows, in display
order. -/
def presentSeasons (rows : List (Nat × ℚ)) : List Season :=
  go season_order
where
  go : List Season → List Season
  | [] => []
  | s :: rest => if seasonPresent rows s then s :: go rest else go rest

/-- `monthly_data.groupby('season').agg(sum)` restricted to the total-tonnes
column, after the categorical re-sort: one row per season that actually occurs
among the monthly rows (pandas `groupby` emits no row for an absent group),
carrying that season's summed total (source lines 2494–2509). -/
def seasonal_data (rows : List (Nat × ℚ)) : List (Season × ℚ) :=
  (presentSeasons rows).map (fun s => (s, seasonTotal rows s))

/-- `seasonal_data['total_emissions_tonnes'].sum()` — the denominator of the
percentage column (source line 2574). -/
def seasonal_total_sum (rows : List (Nat × ℚ)) : ℚ :=
  ((seasonal_data rows).map Prod.snd).sum

/-- `seasonal_data[seasonal_data['season'] == s]`, first row if any. -/
def findSeasonRow (t : List (Season × ℚ)) (s : Season) : Option (Season × ℚ) :=
  match t with
  | [] => none
  | p :: rest => if p.1 = s then some p else findSeasonRow rest s

/-- The per-season percentage as read back by the display code:
`seasonal_data['percentage'] = total / sum * 100` (source line 2574) followed
by `seasonal_data[seasonal_data['season'] == s]['percentage'].values[0]`
(source lines 2580–2583).  `values[0]` on an absent season raises
`IndexError`, modelled as `none`; the division is pandas float division
(0/0 = NaN). -/
def season_percentage (rows : List (Nat × ℚ)) (s : Season) : Option PFloat :=
  match findSeasonRow (seasonal_data rows) s with
  | some p => some (pfloatMul (pdiv p.2 (seasonal_total_sum rows)) 100)
  | none => none

/-- Evaluation: the grouped rows for data covering only January (5 t) and
July (3 t) are Winter and Summer alone. -/
theorem seasonal_data_winter_summer :
    seasonal_data [(1, 5), (7, 3)] = [(.winter, 5), (.summer, 3)] := by
  norm_num +decide [seasonal_data, presentSeasons, presentSeasons.go,
    season_order, seasonPresent, seasonTotal, season_of, winter_months,
    spring_months, summer_months, autumn_months]

/-- Evaluation: a single zero January row groups to a single zero Winter
row. -/
theorem seasonal_data_zero :
    seasonal_data [(1, 0)] = [(.winter, 0)] := by
  norm_num +decide [seasonal_data, presentSeasons, presentSeasons.go,
    season_order, seasonPresent, seasonTotal, season_of, winter_months,
    spring_months, summer_months, autumn_months]

/-- Evaluation of the Winter group total for the two-row data set. -/
theorem seasonTotal_winter_eval :
    seasonTotal [(1, 5), (7, 3)] Season.winter = 5 := by
  norm_num +decide [seasonTotal, season_of, winter_months, spring_months,
    summer_months, autumn_months]

/-- Evaluation of the Summer group total for the two-row data set. -/
theorem seasonTotal_summer_eval :
    seasonTotal [(1, 5), (7, 3)] Season.summer = 3 := by
  norm_num +decide [seasonTotal, season_of, winter_months, spring_months,
    summer_months, autumn_months]

/-- Evaluation of the Winter group total for the zero data set. -/
theorem seasonTotal_zero_eval :
    seasonTotal [(1, 0)] Season.winter = 0 := by
  norm_num +decide [seasonTotal, season_of, winter_months, spring_months,
    summer_months, autumn_months]

/-- Counterexample / code evaluation for C5.  The month-to-season assignment
is the fixed one the claim states (verified for all twelve months), but the
rest of the claim fails on the code: for a year whose data covers only Winter
and Summer months (January 5 t, July 3 t) the seasonal groupby emits no
Spring or Autumn row, so reading those percentages raises `IndexError`
(`none`) — they are not defined, not 0%, and the four-season sum is
undefined — while the two present seasons carry 62.5% and 37.5%; and for a
year whose only row is zero (January 0 t) the percentage is `NaN` (0/0), not
zero. -/
theorem season_percentage_partial_year :
    (season_of 12 = .winter ∧ season_of 1 = .winter ∧ season_of 2 = .winter) ∧
    (season_of 3 = .spring ∧ season_of 4 = .spring ∧ season_of 5 = .spring) ∧
    (season_of 6 = .summer ∧ season_of 7 = .summer ∧ season_of 8 = .summer) ∧
    (season_of 9 = .autumn ∧ season_of 10 = .autumn ∧ season_of 11 = .autumn) ∧
    season_percentage [(1, 5), (7, 3)] .spring = none ∧
    season_percentage [(1, 5), (7, 3)] .autumn = none ∧
    season_percentage [(1, 5), (7, 3)] .winter
      = some (PFloat.finite 62.5) ∧
    season_percentage [(1, 5), (7, 3)] .summer
      = some (PFloat.finite 37.5) ∧
    season_percentage [(1, 0)] .winter = some PFloat.nan := by
  refine ⟨by decide, by decide, by decide, by decide, ?_, ?_, ?_, ?_, ?_⟩ <;>
    norm_num +decide [season_percentage, seasonal_data_winter_summer,
      seasonal_data_zero, seasonTotal_winter_eval, seasonTotal_summer_eval,
      seasonTotal_zero_eval, findSeasonRow, seasonal_total_sum, pdiv, pfloatMul]

/-- The target-pathway dataframe (source lines 2623–2627): one (year, target)
pair for each year in `range(baseline_year, max(available_years) + 11)`. -/
def target_df (baseline_year maxYear : Int)
    (baseline_emissions target_percentage : ℚ) : List (Int × Option ℚ) :=
  (List.range (maxYear + 11 - baseline_year).toNat).map
    (fun (i : Nat) => (baseline_year + (i : Int),
      pathway_target baseline_year baseline_emissions target_percentage
        (baseline_year + (i : Int))))

/-- C6: for every baseline year b < 2050, baseline emissions B and target
percentage p, the i-th entry of the pathway dataframe is the year y = b + i
paired with the linear interpolation B × (1 − (p/100) × (y − b)/(2050 − b)),
which is defined (`some`) since b < 2050 rules out the zero denominator. -/
theorem target_df_linear (b maxY : Int) (B p : ℚ) (i : Nat)
    (hb : b < 2050) (hi : (i : Int) < maxY + 11 - b) :
    (target_df b maxY B p)[i]? =
      some (b + i, some (B * (1 - (p / 100) * (i : ℚ) / ((2050 - b : Int) : ℚ)))) := by
  have hlen : i < (maxY + 11 - b).toNat := by omega
  have hzero : (2050 - b : Int) ≠ 0 := by omega
  unfold target_df
  rw [List.getElem?_map, List.getElem?_range hlen]
  simp only [Option.map_some']
  have harg : ((b + (i : Int)) - b : Int) = (i : Int) := by ring
  simp only [pathway_target, if_neg hzero, harg]
  norm_num

/-- Witness for C6: baseline_year = 2020, baseline = 100 t, target = 50%,
latest data year 2025 — the entry at index 15 is year 2035 (halfway to 2050)
with projected value 75 t (the linear midpoint). -/
theorem target_df_linear_witness :
    (target_df 2020 2025 100 50)[15]? = some (2035, some 75) := by
  have h := target_df_linear 2020 2025 100 50 15 (by norm_num) (by norm_num)
  rw [h]
  norm_num

/-- `target_emissions = baseline_emissions * (1 - target_percentage/100)`
(source line 2620). -/
def target_emissions_of (baseline_emissions target_percentage : ℚ) : ℚ :=
  baseline_emissions * (1 - target_percentage / 100)

/-- `actual_reduction = ((baseline_emissions - latest_emissions) /
baseline_emissions) * 100` (source line 2701). -/
def actual_reduction (baseline_emissions latest_emissions : ℚ) : ℚ :=
  ((baseline_emissions - latest_emissions) / baseline_emissions) * 100

/-- `expected_reduction = target_percentage * (years_elapsed / target_years)`
with `years_elapsed = latest_year - baseline_year` and
`target_years = 2050 - baseline_year` (source lines 2695–2697). -/
def expected_reduction (target_percentage : ℚ) (baseline_year latest_year : Int) : ℚ :=
  target_percentage *
    (((latest_year - baseline_year : Int) : ℚ) / ((2050 - baseline_year : Int) : ℚ))

/-- The four progress labels of source lines 2728–2740. -/
inductive ProgressStatus
  | targetAchieved
  | offTrack
  | onTrack
  | behindSchedule
  deriving DecidableEq

/-- The status cascade of source lines 2728–2740, with
`on_track = actual_reduction >= expected_reduction` (source line 2704):
'Target Achieved!' if `latest_emissions <= target_emissions`, elif
`actual_reduction <= 0` then 'Off Track', elif `on_track` then 'On Track',
else 'Behind Schedule'. -/
def progress_status (baseline_emissions latest_emissions target_percentage : ℚ)
    (baseline_year latest_year : Int) : ProgressStatus :=
  if latest_emissions ≤ target_emissions_of baseline_emissions target_percentage then
    .targetAchieved
  else if actual_reduction baseline_emissions latest_emissions ≤ 0 then
    .offTrack
  else if actual_reduction baseline_emissions latest_emissions
      ≥ expected_reduction target_percentage baseline_year latest_year then
    .onTrack
  else
    .behindSchedule

/-- C7: the progress assessment computes
actual_reduction = (baseline − latest)/baseline × 100 and
expected_reduction = target_percentage × (years_elapsed/(2050 − baseline_year)),
and the reported status is the first matching case in this exact order:
Target Achieved if latest ≤ target_emissions, then Off Track if
actual_reduction ≤ 0, then On Track if actual_reduction ≥ expected_reduction,
otherwise Behind Schedule — stated as an exact characterisation of each of
the four outcomes. -/
theorem progress_status_cases (baseline latest p : ℚ) (bYear lYear : Int) :
    actual_reduction baseline latest = (baseline - latest) / baseline * 100 ∧
    expected_reduction p bYear lYear
      = p * (((lYear - bYear : Int) : ℚ) / ((2050 - bYear : Int) : ℚ)) ∧
    target_emissions_of baseline p = baseline * (1 - p / 100) ∧
    (progress_status baseline latest p bYear lYear = .targetAchieved ↔
      latest ≤ target_emissions_of baseline p) ∧
    (progress_status baseline latest p bYear lYear = .offTrack ↔
      ¬ latest ≤ target_emissions_of baseline p ∧
      actual_reduction baseline latest ≤ 0) ∧
    (progress_status baseline latest p bYear lYear = .onTrack ↔
      ¬ latest ≤ target_emissions_of baseline p ∧
      ¬ actual_reduction baseline latest ≤ 0 ∧
      actual_reduction baseline latest ≥ expected_reduction p bYear lYear) ∧
    (progress_status baseline latest p bYear lYear = .behindSchedule ↔
      ¬ latest ≤ target_emissions_of baseline p ∧
      ¬ actual_reduction baseline latest ≤ 0 ∧
      ¬ actual_reduction baseline latest ≥ expected_reduction p bYear lYear) := by
  refine ⟨rfl, rfl, rfl, ?_, ?_, ?_, ?_⟩ <;>
    · unfold progress_status
      split_ifs with h1 h2 h3 <;> simp_all

/-- The keys of the entry dict built by the demo-data generator
`generate_year_data` (source lines 173–188), in literal order. -/
def demo_entry_keys : List String :=
  ["building_id", "building_name", "building_type", "floor_area", "year",
   "month", "month_num", "electricity_kwh", "electricity_provider", "gas_kwh",
   "gas_provider", "electricity_emissions_kg", "gas_emissions_kg",
   "total_emissions_tonnes"]

/-- The keys of the entry dict built by `show_multiple_month_form`
(source lines 1573–1589), in literal order. -/
def multi_month_entry_keys : List String :=
  ["building_id", "building_name", "building_type", "floor_area", "year",
   "month", "month_num", "electricity_kwh", "electricity_provider", "gas_kwh",
   "gas_provider", "electricity_emissions_kg", "gas_emissions_kg",
   "total_emissions_tonnes", "factor_year"]

/-- The keys of the entry dict built by `show_single_month_form`
(source lines 1755–1771), in literal order. -/
def single_month_entry_keys : List String :=
  ["building_id", "building_name", "building_type", "floor_area", "year",
   "month", "month_num", "electricity_kwh", "electricity_provider", "gas_kwh",
   "gas_provider", "electricity_emissions_kg", "gas_emissions_kg",
   "total_emissions_tonnes", "factor_year"]

/-- The derived fields a stored entry carries: per-carrier emissions in kg,
total emissions in tonnes, and the factor year when the dict has that key
(`none` models an absent key). -/
structure StoredDerived where
  electricity_emissions_kg : ℚ
  gas_emissions_kg : ℚ
  total_emissions_tonnes : ℚ
  factor_year : Option Int
  deriving DecidableEq

/-- The derived fields stored by the demo-data generator (source lines
185–187): the three emissions values of `calculate_emissions`, with no
`factor_year` key. -/
def demo_entry_stored (rp : ReportingPeriod) (e g : ℚ) (d : PyDate) :
    StoredDerived :=
  let em := calculate_emissions rp e g (.asDate d)
  { electricity_emissions_kg := em.electricity_emissions_kg
    gas_emissions_kg := em.gas_emissions_kg
    total_emissions_tonnes := em.total_emissions_tonnes
    factor_year := none }

/-- The derived fields stored by both entry forms (source lines 1585–1588 and
1767–1770): the three emissions values of `calculate_emissions` plus
`factor_year`. -/
def form_entry_stored (rp : ReportingPeriod) (e g : ℚ) (date : DateOrYear) :
    StoredDerived :=
  let em := calculate_emissions rp e g date
  { electricity_emissions_kg := em.electricity_emissions_kg
    gas_emissions_kg := em.gas_emissions_kg
    total_emissions_tonnes := em.total_emissions_tonnes
    factor_year := some em.factor_year }

/-- Counterexample for C9: the demo-data generator's entry dict has no
`factor_year` key — unlike the two form entry dicts — so not every appended
UsageEntry stores the factor-year actually used, and a concrete demo entry
carries `none` where the forms carry the resolved year. -/
theorem demo_entry_lacks_factor_year :
    "factor_year" ∉ demo_entry_keys ∧
    "factor_year" ∈ multi_month_entry_keys ∧
    "factor_year" ∈ single_month_entry_keys ∧
    (demo_entry_stored .calendar 100 200 ⟨2024, 6⟩).factor_year = none :=
  ⟨by decide, by decide, by decide, rfl⟩

/-- C9 as amended: every entry from the single-month and multiple-month forms
stores, alongside the raw inputs, the derived fields electricity emissions
(kg), gas emissions (kg), total emissions (tonnes) and the factor-year
actually used, all equal to the output of `calculate_emissions` at
entry-creation time; demo-generator entries store the three emissions values
likewise but omit the factor-year key. -/
theorem entry_stored_derived_fields (rp : ReportingPeriod) (e g : ℚ)
    (d : PyDate) (date : DateOrYear) :
    ("electricity_emissions_kg" ∈ demo_entry_keys ∧
      "electricity_emissions_kg" ∈ multi_month_entry_keys ∧
      "electricity_emissions_kg" ∈ single_month_entry_keys) ∧
    ("gas_emissions_kg" ∈ demo_entry_keys ∧
      "gas_emissions_kg" ∈ multi_month_entry_keys ∧
      "gas_emissions_kg" ∈ single_month_entry_keys) ∧
    ("total_emissions_tonnes" ∈ demo_entry_keys ∧
      "total_emissions_tonnes" ∈ multi_month_entry_keys ∧
      "total_emissions_tonnes" ∈ single_month_entry_keys) ∧
    ("factor_year" ∈ multi_month_entry_keys ∧
      "factor_year" ∈ single_month_entry_keys ∧
      "factor_year" ∉ demo_entry_keys) ∧
    form_entry_stored rp e g date =
      { electricity_emissions_kg :=
          (calculate_emissions rp e g date).electricity_emissions_kg
        gas_emissions_kg := (calculate_emissions rp e g date).gas_emissions_kg
        total_emissions_tonnes :=
          (calculate_emissions rp e g date).total_emissions_tonnes
        factor_year := some (calculate_emissions rp e g date).factor_year } ∧
    demo_entry_stored rp e g d =
      { electricity_emissions_kg :=
          (calculate_emissions rp e g (.asDate d)).electricity_emissions_kg
        gas_emissions_kg :=
          (calculate_emissions rp e g (.asDate d)).gas_emissions_kg
        total_emissions_tonnes :=
          (calculate_emissions rp e g (.asDate d)).total_emissions_tonnes
        factor_year := none } :=
  ⟨⟨by decide, by decide, by decide⟩, ⟨by decide, by decide, by decide⟩,
   ⟨by decide, by decide, by decide⟩, ⟨by decide, by decide, by decide⟩,
   rfl, rfl⟩
